import Mathlib

/-!
Verification of `preprocessing/filtering.py`: a single-pass corpus filter
combining a basic size/shape gate, a repository-stars gate and a
comment-density gate, followed by corpus statistics and a guarded
persistence step.  Python dicts of diagnostics are embedded as association
lists built by successive insertion; Python floats are embedded as `Rat`;
the external comment-density oracle `get_nl_ratio` is a function parameter.
-/

namespace Filtering

/-- A value stored in the per-record stats dict: the source stores ints
(tag values, star counts, the accepted flag) and floats (`nl_ratio`). -/
inductive StatVal where
  | intV : Int → StatVal
  | ratV : Rat → StatVal
deriving DecidableEq

/-- One corpus record as read by `combined_filter_map`.  `max_stars_count`
distinguishes an absent key (outer `none`) from a key present with Python
`None` (inner `none`), matching `example.get("max_stars_count", 0)`
followed by the `is None` check.  `size` may be absent before the
size-annotation step of `__main__`. -/
structure Example where
  content : String
  lang : String
  max_line_length : Int
  avg_line_length : Rat
  alphanum_fraction : Rat
  max_stars_count : Option (Option Int)
  size : Option Nat
deriving DecidableEq

/-- The fields of `FilteringArguments` consumed by the filter stage. -/
structure FilteringArguments where
  line_max : Int
  line_mean : Rat
  alpha_frac : Rat
  threshold_stars : Int
  min_threshold_comments : Rat
  max_threshold_comments : Rat
deriving DecidableEq

/-- Dict lookup on the stats association list. -/
def statLookup : List (String × StatVal) → String → Option StatVal
  | [], _ => none
  | (k, v) :: rest, key => if k = key then some v else statLookup rest key

/-- Normalization `stars = example.get("max_stars_count", 0); if stars is None: stars = 0`. -/
def normalizedStars (ex : Example) : Int :=
  match ex.max_stars_count with
  | none => 0
  | some none => 0
  | some (some v) => v

/-- Embedding of `combined_filter_map(example, args)`: the combined basic /
stars / comments filter.  Returns the merged record `{**example, **stats}`
as the pair of the untouched example and the stats dict (no stats key
collides with an example field).  `get_nl_ratio` is the external
comment-density oracle from `utils.text_extraction`, passed as a
parameter. -/
def combined_filter_map (get_nl_ratio : String → String → Rat)
    (ex : Example) (args : FilteringArguments) :
    Example × List (String × StatVal) :=
  let is_valid := true
  let stats : List (String × StatVal) := []
  let (is_valid, stats) :=
    if ex.max_line_length > args.line_max then
      (false, stats ++ [("basic_rejected_max_line", StatVal.intV 1)])
    else if ex.avg_line_length > args.line_mean then
      (false, stats ++ [("basic_rejected_avg_line", StatVal.intV 1)])
    else if ex.alphanum_fraction < args.alpha_frac then
      (false, stats ++ [("basic_rejected_alphanum", StatVal.intV 1)])
    else (is_valid, stats)
  let stars := normalizedStars ex
  let stats := stats ++ [("stars", StatVal.intV stars)]
  let (is_valid, stats) :=
    if stars ≤ args.threshold_stars then
      (false, stats ++ [("stars_rejected", StatVal.intV 1)])
    else (is_valid, stats)
  let nl_ratio := get_nl_ratio ex.content ex.lang.toLower
  let stats := stats ++ [("nl_ratio", StatVal.ratV nl_ratio)]
  let (is_valid, stats) :=
    if nl_ratio ≤ args.min_threshold_comments ∨ nl_ratio ≥ args.max_threshold_comments then
      (false, stats ++ [("comments_rejected", StatVal.intV 1)])
    else (is_valid, stats)
  let stats := stats ++ [("accepted", StatVal.intV (if is_valid then 1 else 0))]
  (ex, stats)

/-- Closed form of `combined_filter_map`: the example passes through
untouched and the stats dict is the concatenation produced by the three
gates, with `accepted = 1` exactly when no condition fired.  Shared
characterization used by the claim proofs below. -/
theorem cfm_eq (oracle : String → String → Rat) (ex : Example) (args : FilteringArguments) :
    combined_filter_map oracle ex args =
      (ex,
       (if ex.max_line_length > args.line_max then [("basic_rejected_max_line", StatVal.intV 1)]
        else if ex.avg_line_length > args.line_mean then [("basic_rejected_avg_line", StatVal.intV 1)]
        else if ex.alphanum_fraction < args.alpha_frac then [("basic_rejected_alphanum", StatVal.intV 1)]
        else [])
       ++ [("stars", StatVal.intV (normalizedStars ex))]
       ++ (if normalizedStars ex ≤ args.threshold_stars then [("stars_rejected", StatVal.intV 1)] else [])
       ++ [("nl_ratio", StatVal.ratV (oracle ex.content ex.lang.toLower))]
       ++ (if oracle ex.content ex.lang.toLower ≤ args.min_threshold_comments ∨
             oracle ex.content ex.lang.toLower ≥ args.max_threshold_comments
           then [("comments_rejected", StatVal.intV 1)] else [])
       ++ [("accepted", StatVal.intV
             (if ¬ (ex.max_line_length > args.line_max) ∧ ¬ (ex.avg_line_length > args.line_mean) ∧
                 ¬ (ex.alphanum_fraction < args.alpha_frac) ∧
                 ¬ (normalizedStars ex ≤ args.threshold_stars) ∧
                 ¬ (oracle ex.content ex.lang.toLower ≤ args.min_threshold_comments ∨
                    oracle ex.content ex.lang.toLower ≥ args.max_threshold_comments)
              then 1 else 0))]) := by
  unfold combined_filter_map
  by_cases h1 : ex.max_line_length > args.line_max <;>
  by_cases h2 : ex.avg_line_length > args.line_mean <;>
  by_cases h3 : ex.alphanum_fraction < args.alpha_frac <;>
  by_cases h4 : normalizedStars ex ≤ args.threshold_stars <;>
  by_cases h5 : oracle ex.content ex.lang.toLower ≤ args.min_threshold_comments ∨
      oracle ex.content ex.lang.toLower ≥ args.max_threshold_comments <;>
  simp [h1, h2, h3, h4, h5]

/-- The three basic-rejection keys, in the order of the `elif` chain. -/
def basicTagKeys : List String :=
  ["basic_rejected_max_line", "basic_rejected_avg_line", "basic_rejected_alphanum"]

/-- Basic-rejection tags present in a stats dict, in dict order. -/
def basicTags (stats : List (String × StatVal)) : List String :=
  (stats.map Prod.fst).filter (fun k => basicTagKeys.contains k)

/-- C1: for every record and config the output has `accepted == 1` iff none
of the five rejection tags (`basic_rejected_max_line`,
`basic_rejected_avg_line`, `basic_rejected_alphanum`, `stars_rejected`,
`comments_rejected`) is present: validity starts true, is only ever
downgraded by a failing gate, and is never restored later. -/
theorem accepted_iff_no_rejection_tags (oracle : String → String → Rat)
    (ex : Example) (args : FilteringArguments) :
    statLookup (combined_filter_map oracle ex args).2 "accepted" = some (StatVal.intV 1) ↔
      (statLookup (combined_filter_map oracle ex args).2 "basic_rejected_max_line" = none ∧
       statLookup (combined_filter_map oracle ex args).2 "basic_rejected_avg_line" = none ∧
       statLookup (combined_filter_map oracle ex args).2 "basic_rejected_alphanum" = none ∧
       statLookup (combined_filter_map oracle ex args).2 "stars_rejected" = none ∧
       statLookup (combined_filter_map oracle ex args).2 "comments_rejected" = none) := by
  simp only [cfm_eq]
  by_cases h1 : ex.max_line_length > args.line_max <;>
  by_cases h2 : ex.avg_line_length > args.line_mean <;>
  by_cases h3 : ex.alphanum_fraction < args.alpha_frac <;>
  by_cases h4 : normalizedStars ex ≤ args.threshold_stars <;>
  by_cases h5 : oracle ex.content ex.lang.toLower ≤ args.min_threshold_comments ∨
      oracle ex.content ex.lang.toLower ≥ args.max_threshold_comments <;>
  simp [h1, h2, h3, h4, h5, statLookup]

/-- C3: at most one basic tag is ever present, and the one recorded is the
first failing condition in the fixed order max-line, avg-line,
alphanum-fraction. -/
theorem at_most_one_basic_tag_first_match (oracle : String → String → Rat)
    (ex : Example) (args : FilteringArguments) :
    (basicTags (combined_filter_map oracle ex args).2).length ≤ 1 ∧
    basicTags (combined_filter_map oracle ex args).2 =
      (if ex.max_line_length > args.line_max then ["basic_rejected_max_line"]
       else if ex.avg_line_length > args.line_mean then ["basic_rejected_avg_line"]
       else if ex.alphanum_fraction < args.alpha_frac then ["basic_rejected_alphanum"]
       else []) := by
  simp only [cfm_eq]
  by_cases h1 : ex.max_line_length > args.line_max <;>
  by_cases h2 : ex.avg_line_length > args.line_mean <;>
  by_cases h3 : ex.alphanum_fraction < args.alpha_frac <;>
  by_cases h4 : normalizedStars ex ≤ args.threshold_stars <;>
  by_cases h5 : oracle ex.content ex.lang.toLower ≤ args.min_threshold_comments ∨
      oracle ex.content ex.lang.toLower ≥ args.max_threshold_comments <;>
  simp [h1, h2, h3, h4, h5, basicTags, basicTagKeys]

/-- C5: the `stars` and `nl_ratio` diagnostic fields are present in the
output of every evaluation — the stars and comments gates are computed
unconditionally, never short-circuited by an earlier failure. -/
theorem stars_and_nl_ratio_always_present (oracle : String → String → Rat)
    (ex : Example) (args : FilteringArguments) :
    statLookup (combined_filter_map oracle ex args).2 "stars" =
      some (StatVal.intV (normalizedStars ex)) ∧
    statLookup (combined_filter_map oracle ex args).2 "nl_ratio" =
      some (StatVal.ratV (oracle ex.content ex.lang.toLower)) := by
  simp only [cfm_eq]
  by_cases h1 : ex.max_line_length > args.line_max <;>
  by_cases h2 : ex.avg_line_length > args.line_mean <;>
  by_cases h3 : ex.alphanum_fraction < args.alpha_frac <;>
  by_cases h4 : normalizedStars ex ≤ args.threshold_stars <;>
  by_cases h5 : oracle ex.content ex.lang.toLower ≤ args.min_threshold_comments ∨
      oracle ex.content ex.lang.toLower ≥ args.max_threshold_comments <;>
  simp [h1, h2, h3, h4, h5, statLookup]

/-- C2: boundary values reject.  If the normalized stars value equals
`threshold_stars` then `stars_rejected` is tagged and the record is marked
invalid (`accepted = 0`); if the comment ratio equals
`min_threshold_comments` or `max_threshold_comments` then
`comments_rejected` is tagged and the record is marked invalid. -/
theorem boundary_values_reject (oracle : String → String → Rat)
    (ex : Example) (args : FilteringArguments) :
    (normalizedStars ex = args.threshold_stars →
      statLookup (combined_filter_map oracle ex args).2 "stars_rejected" = some (StatVal.intV 1) ∧
      statLookup (combined_filter_map oracle ex args).2 "accepted" = some (StatVal.intV 0)) ∧
    (oracle ex.content ex.lang.toLower = args.min_threshold_comments ∨
     oracle ex.content ex.lang.toLower = args.max_threshold_comments →
      statLookup (combined_filter_map oracle ex args).2 "comments_rejected" = some (StatVal.intV 1) ∧
      statLookup (combined_filter_map oracle ex args).2 "accepted" = some (StatVal.intV 0)) := by
  constructor
  · intro h
    have h4 : normalizedStars ex ≤ args.threshold_stars := le_of_eq h
    simp only [cfm_eq]
    by_cases h1 : ex.max_line_length > args.line_max <;>
    by_cases h2 : ex.avg_line_length > args.line_mean <;>
    by_cases h3 : ex.alphanum_fraction < args.alpha_frac <;>
    by_cases h5 : oracle ex.content ex.lang.toLower ≤ args.min_threshold_comments ∨
        oracle ex.content ex.lang.toLower ≥ args.max_threshold_comments <;>
    simp [h1, h2, h3, h4, h5, statLookup]
  · intro h
    have h5 : oracle ex.content ex.lang.toLower ≤ args.min_threshold_comments ∨
        oracle ex.content ex.lang.toLower ≥ args.max_threshold_comments := by
      rcases h with h | h
      · exact Or.inl (le_of_eq h)
      · exact Or.inr h.ge
    simp only [cfm_eq]
    by_cases h1 : ex.max_line_length > args.line_max <;>
    by_cases h2 : ex.avg_line_length > args.line_mean <;>
    by_cases h3 : ex.alphanum_fraction < args.alpha_frac <;>
    by_cases h4 : normalizedStars ex ≤ args.threshold_stars <;>
    simp [h1, h2, h3, h4, h5, statLookup]

/-- Record at the stars boundary: `max_stars_count = 5 = threshold_stars`. -/
def exW2a : Example :=
  { content := "print(1)", lang := "Python", max_line_length := 10, avg_line_length := 5,
    alphanum_fraction := 1, max_stars_count := some (some 5), size := some 8 }

/-- Record for the comment-ratio boundary (the constant oracle below
returns exactly the minimum threshold on it). -/
def exW2b : Example :=
  { content := "print(2)", lang := "Python", max_line_length := 10, avg_line_length := 5,
    alphanum_fraction := 1, max_stars_count := some (some 9), size := some 8 }

/-- Config used by the concrete witnesses. -/
def argsW : FilteringArguments :=
  { line_max := 1000, line_mean := 100, alpha_frac := 0, threshold_stars := 5,
    min_threshold_comments := 0, max_threshold_comments := 3 }

/-- Constant comment-density oracle returning the minimum threshold of
`argsW`. -/
def oracleW : String → String → Rat := fun _ _ => 0

/-- Witness for C2 at concrete inputs: a record with exactly
`threshold_stars` stars is stars-rejected, and a record whose ratio equals
`min_threshold_comments` is comments-rejected. -/
theorem boundary_values_reject_witness :
    (statLookup (combined_filter_map oracleW exW2a argsW).2 "stars_rejected" = some (StatVal.intV 1) ∧
     statLookup (combined_filter_map oracleW exW2a argsW).2 "accepted" = some (StatVal.intV 0)) ∧
    (statLookup (combined_filter_map oracleW exW2b argsW).2 "comments_rejected" = some (StatVal.intV 1) ∧
     statLookup (combined_filter_map oracleW exW2b argsW).2 "accepted" = some (StatVal.intV 0)) :=
  ⟨(boundary_values_reject oracleW exW2a argsW).1 (by decide),
   (boundary_values_reject oracleW exW2b argsW).2 (Or.inl (by decide))⟩

/-- C4: a record whose `max_stars_count` is absent or `None` is normalized
to `stars = 0` before the stars gate runs, `stars = 0` is recorded in the
diagnostics, and the gate then fires exactly when `0 ≤ threshold_stars`. -/
theorem absent_stars_normalized_to_zero (oracle : String → String → Rat)
    (ex : Example) (args : FilteringArguments)
    (h : ex.max_stars_count = none ∨ ex.max_stars_count = some none) :
    normalizedStars ex = 0 ∧
    statLookup (combined_filter_map oracle ex args).2 "stars" = some (StatVal.intV 0) ∧
    statLookup (combined_filter_map oracle ex args).2 "stars_rejected" =
      (if (0 : Int) ≤ args.threshold_stars then some (StatVal.intV 1) else none) := by
  have hs : normalizedStars ex = 0 := by
    rcases h with h | h <;> simp [normalizedStars, h]
  refine ⟨hs, ?_⟩
  simp only [cfm_eq, hs]
  by_cases h1 : ex.max_line_length > args.line_max <;>
  by_cases h2 : ex.avg_line_length > args.line_mean <;>
  by_cases h3 : ex.alphanum_fraction < args.alpha_frac <;>
  by_cases h4 : (0 : Int) ≤ args.threshold_stars <;>
  by_cases h5 : oracle ex.content ex.lang.toLower ≤ args.min_threshold_comments ∨
      oracle ex.content ex.lang.toLower ≥ args.max_threshold_comments <;>
  simp [h1, h2, h3, h4, h5, statLookup]

/-- Record with `max_stars_count = None` (the key is present, its value is
Python `None`). -/
def exW4 : Example :=
  { content := "print(4)", lang := "Python", max_line_length := 10, avg_line_length := 5,
    alphanum_fraction := 1, max_stars_count := some none, size := some 8 }

/-- Witness for C4: the `None`-starred record gets `stars = 0` in its
diagnostics and is stars-rejected under `threshold_stars = 5`. -/
theorem absent_stars_normalized_to_zero_witness :
    normalizedStars exW4 = 0 ∧
    statLookup (combined_filter_map oracleW exW4 argsW).2 "stars" = some (StatVal.intV 0) ∧
    statLookup (combined_filter_map oracleW exW4 argsW).2 "stars_rejected" =
      (if (0 : Int) ≤ argsW.threshold_stars then some (StatVal.intV 1) else none) :=
  absent_stars_normalized_to_zero oracleW exW4 argsW (Or.inr rfl)

/-- Modelled from the spec: `get_nl_ratio` lives in
`utils/text_extraction.py`, which is not among the sources here.  The
spec's Oracle contract requires a failure on malformed content to be
tolerated by returning a degenerate ratio `0.0` instead of raising.
`base` is the underlying heuristic, returning `none` on records it cannot
score; the tolerant oracle absorbs that failure into the ratio `0`. -/
def tolerant_get_nl_ratio (base : String → String → Option Rat)
    (content lang : String) : Rat :=
  (base content lang).getD 0

/-- C8: an Oracle failure on one malformed record never aborts the corpus
pass.  Mapping the evaluator over the whole corpus still produces one
output per record, the failing record is still present (not dropped), its
diagnostics carry the degenerate `nl_ratio = 0`, and (whenever the minimum
comment threshold is nonnegative) it is comments-rejected with
`accepted = 0`. -/
theorem oracle_failure_tolerated (base : String → String → Option Rat)
    (dataset : List Example) (args : FilteringArguments) (ex : Example)
    (hmem : ex ∈ dataset)
    (hfail : base ex.content ex.lang.toLower = none)
    (hmin : 0 ≤ args.min_threshold_comments) :
    (dataset.map (fun e => combined_filter_map (tolerant_get_nl_ratio base) e args)).length =
      dataset.length ∧
    combined_filter_map (tolerant_get_nl_ratio base) ex args ∈
      dataset.map (fun e => combined_filter_map (tolerant_get_nl_ratio base) e args) ∧
    statLookup (combined_filter_map (tolerant_get_nl_ratio base) ex args).2 "nl_ratio" =
      some (StatVal.ratV 0) ∧
    statLookup (combined_filter_map (tolerant_get_nl_ratio base) ex args).2 "comments_rejected" =
      some (StatVal.intV 1) ∧
    statLookup (combined_filter_map (tolerant_get_nl_ratio base) ex args).2 "accepted" =
      some (StatVal.intV 0) := by
  have hr : tolerant_get_nl_ratio base ex.content ex.lang.toLower = 0 := by
    simp [tolerant_get_nl_ratio, hfail]
  have h5 : (0 : Rat) ≤ args.min_threshold_comments ∨ args.max_threshold_comments ≤ (0 : Rat) :=
    Or.inl hmin
  refine ⟨List.length_map _ _, List.mem_map.mpr ⟨ex, hmem, rfl⟩, ?_⟩
  simp only [cfm_eq, hr]
  by_cases h1 : ex.max_line_length > args.line_max <;>
  by_cases h2 : ex.avg_line_length > args.line_mean <;>
  by_cases h3 : ex.alphanum_fraction < args.alpha_frac <;>
  by_cases h4 : normalizedStars ex ≤ args.threshold_stars <;>
  simp [h1, h2, h3, h4, h5, not_lt.mpr hmin, hr, statLookup]

/-- Record whose content the failing base oracle cannot score. -/
def exW8 : Example :=
  { content := "\xff\xff", lang := "Python", max_line_length := 10, avg_line_length := 5,
    alphanum_fraction := 1, max_stars_count := some (some 9), size := some 2 }

/-- Base oracle that fails on every record (returns `none`). -/
def baseW8 : String → String → Option Rat := fun _ _ => none

/-- Witness for C8: over the one-record corpus `[exW8]` whose record the
base oracle cannot score, the pass completes, the record is retained with
`nl_ratio = 0`, and it is comments-rejected. -/
theorem oracle_failure_tolerated_witness :
    ([exW8].map (fun e => combined_filter_map (tolerant_get_nl_ratio baseW8) e argsW)).length =
      [exW8].length ∧
    combined_filter_map (tolerant_get_nl_ratio baseW8) exW8 argsW ∈
      [exW8].map (fun e => combined_filter_map (tolerant_get_nl_ratio baseW8) e argsW) ∧
    statLookup (combined_filter_map (tolerant_get_nl_ratio baseW8) exW8 argsW).2 "nl_ratio" =
      some (StatVal.ratV 0) ∧
    statLookup (combined_filter_map (tolerant_get_nl_ratio baseW8) exW8 argsW).2 "comments_rejected" =
      some (StatVal.intV 1) ∧
    statLookup (combined_filter_map (tolerant_get_nl_ratio baseW8) exW8 argsW).2 "accepted" =
      some (StatVal.intV 0) :=
  oracle_failure_tolerated baseW8 [exW8] argsW exW8 (by decide) rfl (by decide)

/-- Python float division, which raises `ZeroDivisionError` on a zero
denominator: `none` models the raised exception. -/
def floatDiv (a b : Rat) : Option Rat :=
  if b = 0 then none else some (a / b)

/-- Column access `dataset["size"]`: the list of `size` values; `none`
models the `KeyError` when the column is absent. -/
def sizeColumn : List Example → Option (List Nat)
  | [] => some []
  | ex :: rest =>
    match ex.size with
    | none => none
    | some s =>
      match sizeColumn rest with
      | none => none
      | some r => some (s :: r)

/-- The filter predicate `lambda x: x["accepted"] == 1` applied to a
mapped record. -/
def acceptedPred (r : Example × List (String × StatVal)) : Bool :=
  statLookup r.2 "accepted" == some (StatVal.intV 1)

/-- The six corpus statistics computed and logged by
`filter_dataset_with_stats`. -/
structure CorpusStats where
  initial_size : Nat
  initial_size_gb : Rat
  final_size : Nat
  final_size_gb : Rat
  rejected_pct : Rat
  size_reduction_pct : Rat
deriving DecidableEq

/-- Embedding of `filter_dataset_with_stats(dataset, args)`: map
`combined_filter_map` over the corpus, keep the records with
`accepted == 1`, and compute the logged statistics.  The Python function
returns only the filtered dataset and logs the statistics; the embedding
returns both so the logged values can be reasoned about.  `none` models an
uncaught exception: `KeyError` on a missing `size` column or
`ZeroDivisionError` in the two percentage computations. -/
def filter_dataset_with_stats (get_nl_ratio : String → String → Rat)
    (dataset : List Example) (args : FilteringArguments) :
    Option (List (Example × List (String × StatVal)) × CorpusStats) :=
  let initial_size := dataset.length
  match sizeColumn dataset with
  | none => none
  | some sizes =>
    let initial_size_gb : Rat := (sizes.sum : Rat) / 1000000000
    let mapped := dataset.map (fun ex => combined_filter_map get_nl_ratio ex args)
    let filtered_dataset := mapped.filter acceptedPred
    let final_size := filtered_dataset.length
    match sizeColumn (filtered_dataset.map Prod.fst) with
    | none => none
    | some fsizes =>
      let final_size_gb : Rat := (fsizes.sum : Rat) / 1000000000
      match floatDiv ((((initial_size : Int) - (final_size : Int)) * 100 : Int) : Rat)
          (initial_size : Rat) with
      | none => none
      | some rejected_pct =>
        match floatDiv ((initial_size_gb - final_size_gb) * 100) initial_size_gb with
        | none => none
        | some size_reduction_pct =>
          some (filtered_dataset,
            { initial_size := initial_size, initial_size_gb := initial_size_gb,
              final_size := final_size, final_size_gb := final_size_gb,
              rejected_pct := rejected_pct, size_reduction_pct := size_reduction_pct })

/-- Helper: a successful `sizeColumn` means every record carries `size`,
and conversely. -/
theorem sizeColumn_some_of_forall (l : List Example)
    (h : ∀ ex ∈ l, ex.size ≠ none) : ∃ s, sizeColumn l = some s := by
  induction l with
  | nil => exact ⟨[], rfl⟩
  | cons a t ih =>
    obtain ⟨sa, hsa⟩ := Option.ne_none_iff_exists'.mp (h a (List.mem_cons_self a t))
    obtain ⟨st, hst⟩ := ih (fun ex hx => h ex (List.mem_cons_of_mem a hx))
    exact ⟨sa :: st, by simp [sizeColumn, hsa, hst]⟩

/-- Helper: every record in a list with a successful `sizeColumn` carries
`size`. -/
theorem forall_size_of_sizeColumn (l : List Example) (s : List Nat)
    (h : sizeColumn l = some s) : ∀ ex ∈ l, ex.size ≠ none := by
  induction l generalizing s with
  | nil => intro ex hx; cases hx
  | cons a t ih =>
    intro ex hx
    rcases List.mem_cons.mp hx with rfl | hx
    · intro hn
      rw [sizeColumn, hn] at h
      cases h
    · rcases ha : a.size with _ | sa
      · rw [sizeColumn, ha] at h; cases h
      · rw [sizeColumn, ha] at h
        rcases ht : sizeColumn t with _ | r
        · rw [ht] at h; cases h
        · exact ih r ht ex hx

/-- C6: for a non-empty corpus with a positive byte total, the filter
stage succeeds and its logged statistics satisfy
`rejected_pct = (initial_count - final_count) * 100 / initial_count` and
`size_reduction_pct = (initial_bytes - final_bytes) * 100 / initial_bytes`,
where `final_count` is the number of records with `accepted == 1` and the
byte totals are the sums of the `size` fields before and after filtering
(the code computes the second percentage on gigabyte values; the common
factor `10 ^ 9` cancels). -/
theorem corpus_stats_formulas (oracle : String → String → Rat) (dataset : List Example)
    (args : FilteringArguments) (sizes : List Nat)
    (hcol : sizeColumn dataset = some sizes)
    (hne : dataset ≠ [])
    (hbytes : 0 < sizes.sum) :
    ∃ filtered fsizes st,
      filter_dataset_with_stats oracle dataset args = some (filtered, st) ∧
      filtered = (dataset.map (fun e => combined_filter_map oracle e args)).filter acceptedPred ∧
      sizeColumn (filtered.map Prod.fst) = some fsizes ∧
      st.initial_size = dataset.length ∧
      st.final_size = filtered.length ∧
      st.rejected_pct =
        ((dataset.length : Rat) - (filtered.length : Rat)) * 100 / (dataset.length : Rat) ∧
      st.size_reduction_pct =
        ((sizes.sum : Rat) - (fsizes.sum : Rat)) * 100 / (sizes.sum : Rat) := by
  have hsub : ∀ e ∈ ((dataset.map (fun e => combined_filter_map oracle e args)).filter
      acceptedPred).map Prod.fst, e.size ≠ none := by
    intro e he
    obtain ⟨r, hr, rfl⟩ := List.mem_map.mp he
    have hrm : r ∈ dataset.map (fun e => combined_filter_map oracle e args) :=
      List.mem_of_mem_filter hr
    obtain ⟨e0, he0, rfl⟩ := List.mem_map.mp hrm
    have h1 : (combined_filter_map oracle e0 args).1 = e0 := by rw [cfm_eq]
    rw [h1]
    exact forall_size_of_sizeColumn dataset sizes hcol e0 he0
  obtain ⟨fsizes, hfs⟩ := sizeColumn_some_of_forall _ hsub
  have hlen : (dataset.length : Rat) ≠ 0 :=
    Nat.cast_ne_zero.mpr (fun h => hne (List.length_eq_zero.mp h))
  have hsum : (sizes.sum : Rat) ≠ 0 := Nat.cast_ne_zero.mpr hbytes.ne'
  have hgb : ((sizes.sum : Rat) / 1000000000) ≠ 0 := div_ne_zero hsum (by norm_num)
  have key : filter_dataset_with_stats oracle dataset args =
      some ((dataset.map (fun e => combined_filter_map oracle e args)).filter acceptedPred,
        { initial_size := dataset.length,
          initial_size_gb := (sizes.sum : Rat) / 1000000000,
          final_size :=
            ((dataset.map (fun e => combined_filter_map oracle e args)).filter acceptedPred).length,
          final_size_gb := (fsizes.sum : Rat) / 1000000000,
          rejected_pct :=
            ((((dataset.length : Int) -
              (((dataset.map (fun e => combined_filter_map oracle e args)).filter
                acceptedPred).length : Int)) * 100 : Int) : Rat) / (dataset.length : Rat),
          size_reduction_pct :=
            ((sizes.sum : Rat) / 1000000000 - (fsizes.sum : Rat) / 1000000000) * 100 /
              ((sizes.sum : Rat) / 1000000000) }) := by
    unfold filter_dataset_with_stats
    rw [hcol]
    simp only []
    rw [hfs]
    simp only [floatDiv, if_neg hlen, if_neg hgb]
  refine ⟨_, fsizes, _, key, rfl, hfs, rfl, rfl, ?_, ?_⟩
  · show ((((dataset.length : Int) -
        (((dataset.map (fun e => combined_filter_map oracle e args)).filter
          acceptedPred).length : Int)) * 100 : Int) : Rat) / (dataset.length : Rat) = _
    push_cast
    ring
  · show ((sizes.sum : Rat) / 1000000000 - (fsizes.sum : Rat) / 1000000000) * 100 /
        ((sizes.sum : Rat) / 1000000000) = _
    field_simp

/-- Witness for C6 on the one-record corpus `[exW2a]` (size 8 bytes). -/
theorem corpus_stats_formulas_witness :
    ∃ filtered fsizes st,
      filter_dataset_with_stats oracleW [exW2a] argsW = some (filtered, st) ∧
      filtered =
        ([exW2a].map (fun e => combined_filter_map oracleW e argsW)).filter acceptedPred ∧
      sizeColumn (filtered.map Prod.fst) = some fsizes ∧
      st.initial_size = [exW2a].length ∧
      st.final_size = filtered.length ∧
      st.rejected_pct =
        (([exW2a].length : Rat) - (filtered.length : Rat)) * 100 / ([exW2a].length : Rat) ∧
      st.size_reduction_pct =
        ((([8] : List Nat).sum : Rat) - (fsizes.sum : Rat)) * 100 / (([8] : List Nat).sum : Rat) :=
  corpus_stats_formulas oracleW [exW2a] argsW [8] rfl (by simp) (by decide)

/-- C10: the percentage divisions in `filter_dataset_with_stats` are
unguarded — on the empty corpus (`initial_count = 0`, hence
`initial_bytes = 0`) the stage produces no result, modelling the
unconditional `ZeroDivisionError`. -/
theorem empty_corpus_stats_undefined (oracle : String → String → Rat)
    (args : FilteringArguments) :
    filter_dataset_with_stats oracle [] args = none := by
  simp [filter_dataset_with_stats, sizeColumn, floatDiv]

/-- Embedding of the `__main__` size-annotation step:
`if "size" not in dataset.column_names: dataset = dataset.map(lambda
example: {"size": len(example["content"])})`.  A Hugging Face dataset has
a uniform schema, so the `size` column is present exactly when every
record carries `size`; Python `len` on a `str` counts characters
(Unicode code points), embedded as `String.length`. -/
def add_size_column (dataset : List Example) : List Example :=
  if dataset.all (fun ex => ex.size.isSome) then dataset
  else dataset.map (fun ex => { ex with size := some ex.content.length })

/-- Record with two-byte, one-character content `"é"` and no `size`
field. -/
def exW9 : Example :=
  { content := "é", lang := "Python", max_line_length := 1, avg_line_length := 1,
    alphanum_fraction := 1, max_stars_count := some (some 9), size := none }

/-- Counterexample to C9 as stated: for the record `exW9` with content
`"é"` the pipeline derives `size = 1` (the character count computed by
Python `len`), while the byte-length of the content is `2`, so the
derived size is not the byte-length. -/
theorem size_byte_length_counterexample :
    (add_size_column [exW9]).map Example.size = [some 1] ∧
    exW9.content.utf8ByteSize = 2 ∧
    (add_size_column [exW9]).map Example.size ≠ [some exW9.content.utf8ByteSize] := by
  refine ⟨by decide, by decide, ?_⟩
  intro h
  have h1 : (add_size_column [exW9]).map Example.size = [some 1] := by decide
  have h2 : exW9.content.utf8ByteSize = 2 := by decide
  rw [h1, h2] at h
  cases h

/-- C9 (amended): under the uniform-schema assumption of the source
corpus (the `size` column is present on every record or on none), a
record lacking `size` gets `size = len(content)` — the character count of
its content, which equals the byte-length only for ASCII content — and a
record already carrying `size` keeps it unchanged. -/
theorem size_defaulted_from_content_length (dataset : List Example)
    (huni : (∀ ex ∈ dataset, ex.size.isSome = true) ∨ (∀ ex ∈ dataset, ex.size = none)) :
    ∀ (i : Nat) (ex : Example), dataset[i]? = some ex →
      (add_size_column dataset)[i]? =
        some (if ex.size.isSome then ex else { ex with size := some ex.content.length }) := by
  intro i ex hi
  have hmem : ex ∈ dataset := List.getElem?_mem hi
  rcases huni with huni | huni
  · have hall : dataset.all (fun e => e.size.isSome) = true :=
      List.all_eq_true.mpr (fun e he => huni e he)
    rw [add_size_column, if_pos hall, hi, if_pos (huni ex hmem)]
  · have hnone : ex.size = none := huni ex hmem
    by_cases hall : dataset.all (fun e => e.size.isSome) = true
    · have := List.all_eq_true.mp hall ex hmem
      rw [hnone] at this
      cases this
    · rw [add_size_column, if_neg hall, List.getElem?_map, hi, hnone]
      simp [Option.isSome]

/-- Witness for C9 (amended): in the two-record corpus `[exW9, exW9]`
where no record carries `size`, the first record comes out with
`size = some 1`, the character count of `"é"`. -/
theorem size_defaulted_from_content_length_witness :
    (add_size_column [exW9, exW9])[0]? =
      some (if exW9.size.isSome then exW9
            else { exW9 with size := some exW9.content.length }) :=
  size_defaulted_from_content_length [exW9, exW9]
    (Or.inr (by intro e he; simp at he; rw [he]; rfl)) 0 exW9 rfl

/-- Outcome vocabulary of the spec's Persistence Guard (§4.3). -/
inductive Outcome where
  | Saved
  | SkippedExisting
deriving DecidableEq

/-- The already-exists signal: Python's `FileExistsError` raised by the
writer when the destination already holds a completed prior output. -/
inductive FileExistsError where
  | mk
deriving DecidableEq

/-- Level of the completion log line emitted by `stream_to_disk`. -/
inductive LogLevel where
  | info
  | warning
deriving DecidableEq

/-- Embedding of `stream_to_disk(dataset, args)`.  Modelled from the spec
for the writer half: `save_manual_shards` lives in
`utils/manual_sharding.py`, which is not among the sources here; per the
spec's writer interface (§6) it either writes (producing a new destination
state) or raises the already-exists signal before writing, so it is a
parameter of type `Except FileExistsError Dest` over an abstract
destination state `Dest`.  The `try/except FileExistsError` of the source
is the match: on success an info line is logged, on the signal a warning
is logged, nothing is written, no exception propagates, and the run
reports `SkippedExisting`. -/
def stream_to_disk {Dest : Type}
    (save_manual_shards : List (Example × List (String × StatVal)) → Dest →
      Except FileExistsError Dest)
    (dataset : List (Example × List (String × StatVal))) (dest : Dest) :
    Dest × Outcome × LogLevel :=
  match save_manual_shards dataset dest with
  | Except.ok dest2 => (dest2, Outcome.Saved, LogLevel.info)
  | Except.error _ => (dest, Outcome.SkippedExisting, LogLevel.warning)

/-- C7: when the destination already holds a completed prior output (the
writer raises the already-exists signal), `stream_to_disk` leaves the
destination untouched, logs a warning instead of raising, and the run
completes with outcome `SkippedExisting`; the accepted corpus it was
handed is not modified. -/
theorem skipped_existing_on_prior_output {Dest : Type}
    (save_manual_shards : List (Example × List (String × StatVal)) → Dest →
      Except FileExistsError Dest)
    (dataset : List (Example × List (String × StatVal))) (dest : Dest)
    (e : FileExistsError)
    (h : save_manual_shards dataset dest = Except.error e) :
    stream_to_disk save_manual_shards dataset dest =
      (dest, Outcome.SkippedExisting, LogLevel.warning) := by
  rw [stream_to_disk, h]

/-- Writer that always raises the already-exists signal. -/
def saveW : List (Example × List (String × StatVal)) → Nat →
    Except FileExistsError Nat :=
  fun _ _ => Except.error FileExistsError.mk

/-- Witness for C7: against a pre-existing destination (state `0`), the
run skips the write, keeps the destination at `0`, and warns. -/
theorem skipped_existing_on_prior_output_witness :
    stream_to_disk saveW [] 0 = (0, Outcome.SkippedExisting, LogLevel.warning) :=
  skipped_existing_on_prior_output saveW [] 0 FileExistsError.mk rfl

end Filtering
